import Mathlib

/-!
Verification development for the FMP stock/crypto data handler
(`sc_data_handler/stock_crypto_data/fmp_data_handler.py`).

The embedding models:
* calendar timestamps as integer minutes (`timedelta(days = k)` is `k * oneDay`);
* the `interval_to_max_days` catalog with exact rationals (the Python table mixes
  `int` values and `float` divisions such as `14600 / 7`; for every value in the
  table the float computation is exact or has fractional part `.5`, so rational
  arithmetic and truncating natural division agree with it);
* the window-planning `while` loop of `recurssive_call_retrieve_historical_bars`
  as a fuel-indexed recursion (fuel sufficiency is proved separately);
* the single-window fetch `retrieve_historical_bars` and the chunked retrieval
  as pure functions over an explicit `upstream` oracle, paired with the list of
  upstream requests actually issued (the call log);
* `datetime.strptime` for the three concrete format strings used by the code,
  following the CPython `_strptime` regular expressions and the `datetime`
  constructor validation;
* the `pytz` US/Eastern → UTC conversion under the post-2007 US DST rule
  (second Sunday of March 03:00 wall time to first Sunday of November 01:00
  wall time, `is_dst=False` disambiguation), which is the rule in force for
  every date this development evaluates.
-/

/-- One model time unit is a minute; `timedelta(days = k)` is `k * oneDay`. -/
def oneDay : Int := 1440

/-- `minute_to_count_in_market_day(min_, max_range) = int(max_range * 390 / min_)`
(lines 56-58).  For every argument pair occurring in the catalog the float
division is exact or ends in `.5`, so truncating `Nat` division agrees. -/
def minute_to_count_in_market_day (min_ max_range : Nat) : Nat :=
  max_range * 390 / min_

/-- `minute_to_count_in_day(min_, max_range) = int(max_range * 1440 / min_)`
(lines 61-63). -/
def minute_to_count_in_day (min_ max_range : Nat) : Nat :=
  max_range * 1440 / min_

/-- One entry of the `interval_to_max_days` table (lines 72-124). -/
structure TimeframeSpec where
  max_range_days : Int
  num_points_market_hours_only : ℚ
  num_points : ℚ
deriving DecidableEq

/-- The `interval_to_max_days` dictionary (lines 72-124), as a finite map from
timeframe names to specs.  `1week`, `1month`, `1year` use Python float division
(`14600 / 7` etc.), kept here as exact rationals. -/
def interval_to_max_days (tf : String) : Option TimeframeSpec :=
  if tf = "1min" then
    some ⟨3, minute_to_count_in_market_day 1 3, minute_to_count_in_day 1 3⟩
  else if tf = "5min" then
    some ⟨10, minute_to_count_in_market_day 5 10, minute_to_count_in_day 5 10⟩
  else if tf = "15min" then
    some ⟨45, minute_to_count_in_market_day 15 45, minute_to_count_in_day 15 45⟩
  else if tf = "30min" then
    some ⟨30, minute_to_count_in_market_day 30 30, minute_to_count_in_day 30 30⟩
  else if tf = "1hour" then
    some ⟨90, minute_to_count_in_market_day 60 90, minute_to_count_in_day 60 90⟩
  else if tf = "4hour" then
    some ⟨180, minute_to_count_in_market_day 240 180, minute_to_count_in_day 240 180⟩
  else if tf = "1day" then
    some ⟨1825, 1825, 1825⟩
  else if tf = "1week" then
    some ⟨14600, 14600 / 7, 14600 / 7⟩
  else if tf = "1month" then
    some ⟨14600, 14600 / 30, 14600 / 30⟩
  else if tf = "1year" then
    some ⟨14600, 14600 / 365, 14600 / 365⟩
  else none

/-- The `timeframes` list (lines 126-138).  Note that it contains `45min`,
which the `interval_to_max_days` table does not. -/
def timeframes : List String :=
  ["1min", "5min", "15min", "30min", "45min", "1hour", "4hour", "1day",
   "1week", "1month", "1year"]

/-- The window-planning loop of `recurssive_call_retrieve_historical_bars`
(lines 351-359):

    while end_date >= start_date and total_points < 20000:
        new_start_date = end_date - datetime.timedelta(days=max_days - 1)
        start_end_date_pairs.append((new_start_date, end_date))
        end_date = new_start_date - datetime.timedelta(days=1)
        total_points += total_num_points

modelled with explicit fuel; `none` means the fuel did not cover the loop
(`planLoop_isSome_of_points` shows fuel `500` always suffices for the
catalog's point counts). -/
def planLoop (startD maxDays : Int) (numPoints : ℚ) :
    Nat → Int → ℚ → Option (List (Int × Int))
  | 0, endD, total =>
      if startD ≤ endD ∧ total < 20000 then none else some []
  | fuel + 1, endD, total =>
      if startD ≤ endD ∧ total < 20000 then
        (planLoop startD maxDays numPoints fuel
            (endD - (maxDays - 1) * oneDay - oneDay)
            (total + numPoints)).map
          (fun rest => (endD - (maxDays - 1) * oneDay, endD) :: rest)
      else some []

/-- Fuel for `planLoop`: the smallest per-window point count in the catalog is
`40` (`1year`), and the loop stops as soon as the running total reaches
`20000`, so at most `20000 / 40 = 500` iterations can occur. -/
def planFuel : Nat := 500

/-- The planner for one catalog entry: picks the expected point density
(market hours for `stock`, continuous otherwise, lines 338-345) and runs the
loop from `end_date` backwards. -/
def planWindows (sp : TimeframeSpec) (type_ : String) (startD endD : Int) :
    Option (List (Int × Int)) :=
  let numPoints :=
    if type_ = "stock" then sp.num_points_market_hours_only else sp.num_points
  planLoop startD sp.max_range_days numPoints planFuel endD 0

/-- The planner as reached from `recurssive_call_retrieve_historical_bars`:
catalog lookup, then `planWindows`. -/
def plan (tf type_ : String) (startD endD : Int) : Option (List (Int × Int)) :=
  (interval_to_max_days tf).bind fun sp => planWindows sp type_ startD endD

/-- Read exactly `n` decimal digits, accumulating their value. -/
def readDigitsAux : Nat → Nat → List Char → Option (Nat × List Char)
  | 0, acc, cs => some (acc, cs)
  | _ + 1, _, [] => none
  | n + 1, acc, c :: cs =>
      if c.isDigit then readDigitsAux n (acc * 10 + (c.toNat - 48)) cs else none

/-- One decimal digit. -/
def read1 (cs : List Char) : Option (Nat × List Char) := readDigitsAux 1 0 cs

/-- Two decimal digits. -/
def read2 (cs : List Char) : Option (Nat × List Char) := readDigitsAux 2 0 cs

/-- Four decimal digits (the CPython `_strptime` pattern for `%Y`). -/
def read4 (cs : List Char) : Option (Nat × List Char) := readDigitsAux 4 0 cs

/-- A two-digit-or-one-digit numeric field in continuation-passing style; the
two-digit alternative is tried first and the one-digit alternative on
backtracking, as in the CPython `_strptime` regex alternations
(for example `%m` is `1[0-2]|0[1-9]|[1-9]`). -/
def num2or1 (lo2 hi2 lo1 : Nat) (k : Nat → List Char → Option α)
    (cs : List Char) : Option α :=
  (match read2 cs with
   | some (v, r) => if lo2 ≤ v ∧ v ≤ hi2 then k v r else none
   | none => none) <|>
  (match read1 cs with
   | some (v, r) => if lo1 ≤ v ∧ v ≤ 9 then k v r else none
   | none => none)

/-- A literal character of the format string. -/
def lit (c : Char) (k : List Char → Option α) (cs : List Char) : Option α :=
  match cs with
  | c2 :: rest => if c2 = c then k rest else none
  | [] => none

/-- ASCII whitespace, the `\s` class for the byte range (CPython replaces each
whitespace run of the format string by `\s+`). -/
def isSpaceChar (c : Char) : Bool :=
  c = ' ' ∨ c = '\t' ∨ c = '\n' ∨ c = '\r' ∨ c = '\x0b' ∨ c = '\x0c'

/-- A whitespace run in the format string: one or more whitespace characters. -/
def wsP (k : List Char → Option α) (cs : List Char) : Option α :=
  match cs with
  | c :: rest => if isSpaceChar c then k (rest.dropWhile isSpaceChar) else none
  | [] => none

/-- Drop at most `n` further digits (used for the optional fractional part of
`%z`, `\.\d{1,6}`). -/
def dropDigits : Nat → List Char → List Char
  | 0, cs => cs
  | _ + 1, [] => []
  | n + 1, c :: cs => if c.isDigit then dropDigits n cs else c :: cs

/-- A naive parsed datetime, the result of `datetime.strptime` without `%z`. -/
structure DTParts where
  year : Nat
  month : Nat
  day : Nat
  hour : Nat
  minute : Nat
  second : Nat
deriving DecidableEq

/-- Gregorian leap year. -/
def isLeapYear (y : Nat) : Bool :=
  y % 4 = 0 ∧ (y % 100 ≠ 0 ∨ y % 400 = 0)

/-- Days in a month (month range `1..12` is guaranteed by the `%m` pattern). -/
def daysInMonth (y m : Nat) : Nat :=
  if m = 2 then (if isLeapYear y then 29 else 28)
  else if m = 4 ∨ m = 6 ∨ m = 9 ∨ m = 11 then 30
  else 31

/-- The `datetime` constructor validation applied by `strptime` after the
regex match: year in `MINYEAR..MAXYEAR`, day valid for the month, and seconds
at most `59` (the `%S` pattern also admits `60` and `61`, which the
constructor then rejects). -/
def mkDT (y m d hh mm ss : Nat) : Option DTParts :=
  if 1 ≤ y ∧ y ≤ 9999 ∧ d ≤ daysInMonth y m ∧ ss ≤ 59 then
    some ⟨y, m, d, hh, mm, ss⟩
  else none

/-- `%Y-%m-%d` in continuation-passing style:  `%Y` is exactly four digits,
`%m` is `1[0-2]|0[1-9]|[1-9]`, `%d` is `3[01]|[12]\d|0[1-9]|[1-9]`. -/
def dateCPS (k : Nat → Nat → Nat → List Char → Option α)
    (cs : List Char) : Option α :=
  match read4 cs with
  | none => none
  | some (y, r1) =>
      lit '-' (num2or1 1 12 1 (fun m =>
        lit '-' (num2or1 1 31 1 (fun d => k y m d)))) r1

/-- `%H:%M:%S` in continuation-passing style: `%H` is `2[0-3]|[0-1]\d|\d`,
`%M` is `[0-5]\d|\d`, `%S` is `6[0-1]|[0-5]\d|\d`. -/
def timeCPS (k : Nat → Nat → Nat → List Char → Option α)
    (cs : List Char) : Option α :=
  num2or1 0 23 0 (fun hh =>
    lit ':' (num2or1 0 59 0 (fun mm =>
      lit ':' (num2or1 0 61 0 (fun ss => k hh mm ss))))) cs

/-- The `timezone(timedelta(...))` construction for a parsed `%z` offset: the
offset must be strictly smaller than 24 hours in magnitude. -/
def tzOffsetOk (sign : Int) (hh mm ss : Nat) : Option Int :=
  let t := hh * 3600 + mm * 60 + ss
  if t < 86400 then some (sign * (t : Int)) else none

/-- The optional seconds group of `%z`, `(:?[0-5]\d(\.\d{1,6})?)?`, together
with the CPython consistency handling of colons: a colon before the seconds is
accepted only when a colon follows the hours, and when a colon follows the
hours a seconds group must itself be introduced by a colon (otherwise CPython
raises `ValueError`, either from the explicit inconsistency check or from the
subsequent `int` conversion, so the parse fails). -/
def tzSeconds (sign : Int) (hh mm : Nat) (colon1 : Bool)
    (r3 : List Char) : Option Int :=
  let colon2 := match r3 with | ':' :: _ => true | _ => false
  let r4 := if colon2 then r3.tail else r3
  match read2 r4 with
  | none => none
  | some (ss, r5) =>
      if ss ≤ 59 ∧ colon1 = colon2 then
        match r5 with
        | [] => tzOffsetOk sign hh mm ss
        | '.' :: r6 =>
            match r6 with
            | d :: r7 =>
                if d.isDigit ∧ dropDigits 5 r7 = [] then tzOffsetOk sign hh mm ss
                else none
            | [] => none
        | _ => none
      else none

/-- `%z` at the end of the format string (the only position it occurs in):
`[+-]\d\d:?[0-5]\d(:?[0-5]\d(\.\d{1,6})?)?|Z`, matched against the entire
remaining input, followed by the `timezone` construction. -/
def matchZEnd (cs : List Char) : Option Int :=
  match cs with
  | ['Z'] => some 0
  | c :: rest =>
      if c = '+' ∨ c = '-' then
        match read2 rest with
        | none => none
        | some (hh, r1) =>
            let sign : Int := if c = '+' then 1 else -1
            let colon1 := match r1 with | ':' :: _ => true | _ => false
            let r2 := if colon1 then r1.tail else r1
            match read2 r2 with
            | none => none
            | some (mm, r3) =>
                if mm ≤ 59 then
                  (tzSeconds sign hh mm colon1 r3) <|>
                  (if r3 = [] then tzOffsetOk sign hh mm 0 else none)
                else none
      else none
  | [] => none

/-- `datetime.strptime(s, "%Y-%m-%d")`. -/
def strptimeYmd (s : String) : Option DTParts :=
  dateCPS (fun y m d rest => if rest = [] then mkDT y m d 0 0 0 else none) s.data

/-- `datetime.strptime(s, "%Y-%m-%d %H:%M:%S")`. -/
def strptimeYmdHms (s : String) : Option DTParts :=
  dateCPS (fun y m d =>
    wsP (timeCPS (fun hh mm ss rest =>
      if rest = [] then mkDT y m d hh mm ss else none))) s.data

/-- An aware parsed datetime: naive parts plus a UTC offset in seconds. -/
structure AwareDT where
  parts : DTParts
  offsetSeconds : Int
deriving DecidableEq

/-- `datetime.strptime(s, "%Y-%m-%d %H:%M:%S%z")`. -/
def strptimeYmdHmsZ (s : String) : Option AwareDT :=
  dateCPS (fun y m d =>
    wsP (timeCPS (fun hh mm ss rest =>
      (matchZEnd rest).bind fun off =>
        (mkDT y m d hh mm ss).map fun p => ⟨p, off⟩))) s.data

/-- The result of `parse_date_string` (the optional current-time component is
irrelevant to the claims and omitted). -/
inductive ParsedDate where
  | aware (dt : AwareDT)
  | naive (dt : DTParts)
deriving DecidableEq

/-- `parse_date_string` (lines 17-47): try the three formats in order and
raise `ValueError` when none matches. -/
def parse_date_string (date_string : String) : Except String ParsedDate :=
  match strptimeYmdHmsZ date_string with
  | some a => .ok (.aware a)
  | none =>
      match strptimeYmdHms date_string with
      | some p => .ok (.naive p)
      | none =>
          match strptimeYmd date_string with
          | some p => .ok (.naive p)
          | none =>
              .error "No matching date format found, must be either %Y-%m-%d %H:%M:%S%z, %Y-%m-%d %H:%M:%S or %Y-%m-%d"

/-- Days since 0000-03-01 for a civil date (Gregorian, year at least 1; the
standard era/year-of-era computation, all in naturals). -/
def daysFromCivil (y m d : Nat) : Nat :=
  let ys := if m ≤ 2 then y - 1 else y
  let era := ys / 400
  let yoe := ys % 400
  let mp := (m + 9) % 12
  let doy := (153 * mp + 2) / 5 + d - 1
  let doe := yoe * 365 + yoe / 4 - yoe / 100 + doy
  era * 146097 + doe

/-- The inverse of `daysFromCivil`: the civil date for a day count. -/
def civilFromDays (z : Nat) : Nat × Nat × Nat :=
  let era := z / 146097
  let doe := z % 146097
  let yoe := (doe - doe / 1460 + doe / 36524 - doe / 146096) / 365
  let y := yoe + era * 400
  let doy := doe - (365 * yoe + yoe / 4 - yoe / 100)
  let mp := (5 * doy + 2) / 153
  let d := doy - (153 * mp + 2) / 5 + 1
  let m := if mp < 10 then mp + 3 else mp - 9
  (if m ≤ 2 then y + 1 else y, m, d)

/-- Day of week with Sunday = 0 (1970-01-01, day 719468, was a Thursday). -/
def dayOfWeekSun0 (y m d : Nat) : Nat :=
  (daysFromCivil y m d + 3) % 7

/-- Day of month of the first Sunday on or after the first of a month. -/
def firstSundayOfMonth (y m : Nat) : Nat :=
  (7 - dayOfWeekSun0 y m 1) % 7 + 1

/-- US/Eastern daylight saving for a wall-clock time, post-2007 rule with the
`pytz` `localize(..., is_dst=False)` disambiguation: daylight time from the
second Sunday of March 03:00 (the nonexistent hour 02:00-02:59 resolves to
standard time) to the first Sunday of November 01:00 (the ambiguous hour
01:00-01:59 resolves to standard time). -/
def isEasternDst (p : DTParts) : Bool :=
  let t := daysFromCivil p.year p.month p.day * 86400
             + p.hour * 3600 + p.minute * 60 + p.second
  let spring := daysFromCivil p.year 3 (firstSundayOfMonth p.year 3 + 7) * 86400
                  + 3 * 3600
  let fall := daysFromCivil p.year 11 (firstSundayOfMonth p.year 11) * 86400
                  + 1 * 3600
  spring ≤ t ∧ t < fall

/-- Zero-pad a natural to `w` digits, as `strftime` does. -/
def padNum (w n : Nat) : String :=
  let s := toString n
  String.mk (List.replicate (w - s.length) '0') ++ s

/-- `est.localize(naive).astimezone(utc).strftime("%Y-%m-%d %H:%M:%S%z")`
(lines 289-293): interpret the naive parts as US/Eastern wall time, add the
UTC offset (5 hours in standard time, 4 in daylight time) and render. -/
def estToUtcString (p : DTParts) : String :=
  let off := if isEasternDst p then 4 else 5
  let totalH := daysFromCivil p.year p.month p.day * 24 + p.hour + off
  let c := civilFromDays (totalH / 24)
  padNum 4 c.1 ++ "-" ++ padNum 2 c.2.1 ++ "-" ++ padNum 2 c.2.2 ++ " " ++
    padNum 2 (totalH % 24) ++ ":" ++ padNum 2 p.minute ++ ":" ++
    padNum 2 p.second ++ "+0000"

/-- A bar of the upstream JSON payload: `{date, open, high, low, close,
volume}`; prices and volume are opaque numbers here, passed through
untouched by the handler. -/
structure RawBar where
  date : String
  open_ : ℚ
  high : ℚ
  low : ℚ
  close : ℚ
  volume : ℚ
deriving DecidableEq

/-- An upstream response body: a JSON array of bars (intraday endpoint) or an
object whose optional `historical` key holds such an array (daily endpoint). -/
inductive Payload where
  | arr (bars : List RawBar)
  | obj (historical : Option (List RawBar))
deriving DecidableEq

/-- Lines 258-259: `if isinstance(data, dict): data = data.get("historical", [])`. -/
def payloadRows : Payload → List RawBar
  | .arr l => l
  | .obj h => h.getD []

/-- The column-oriented (taLib) form built at lines 266-283. -/
structure Columns where
  open_ : List ℚ
  high : List ℚ
  low : List ℚ
  close : List ℚ
  volume : List ℚ
  date : List String
deriving DecidableEq

/-- The pivot loop of lines 276-282: one parallel array per field, in input
order, dates passed through as provider-native strings. -/
def pivotColumns (l : List RawBar) : Columns :=
  ⟨l.map (·.open_), l.map (·.high), l.map (·.low), l.map (·.close),
   l.map (·.volume), l.map (·.date)⟩

/-- A converted output bar (lines 287-301): the `date` field renamed to
`datetime` and timezone-converted, the five numeric fields copied. -/
structure Bar where
  datetime : String
  open_ : ℚ
  high : ℚ
  low : ℚ
  close : ℚ
  volume : ℚ
deriving DecidableEq

/-- The result of one `retrieve_historical_bars` call: a bar list, or the
column record when `format_taLib` is set. -/
inductive SingleResult where
  | rows (bars : List Bar)
  | cols (c : Columns)
deriving DecidableEq

/-- `time_format` selection at lines 247-252. -/
def timeFormatFor (tframe : String) : String :=
  if tframe = "1day" then "%Y-%m-%d" else "%Y-%m-%d %H:%M:%S"

/-- `datetime.strptime(s, time_format)` for the two formats used at line 290. -/
def strptimeFor (fmt : String) (s : String) : Option DTParts :=
  if fmt = "%Y-%m-%d" then strptimeYmd s else strptimeYmdHms s

/-- One element of the conversion comprehension (lines 287-301): parse the
provider date with the endpoint format, convert US/Eastern to UTC, copy the
OHLCV fields.  `none` models the `ValueError` that `strptime` raises when the
provider date does not match the format. -/
def convertBar (fmt : String) (r : RawBar) : Option Bar :=
  (strptimeFor fmt r.date).map fun p =>
    ⟨estToUtcString p, r.open_, r.high, r.low, r.close, r.volume⟩

/-- The non-column reshaping of the payload (lines 264 and 285): reverse the
upstream (descending) payload to ascending order, then keep only the last
10000 entries (`data[-10000:]`). -/
def trimmedRows (l : List RawBar) : List RawBar :=
  l.reverse.drop (l.reverse.length - 10000)

/-- Sequence a list of optional results; `none` as soon as one element is
`none` (the comprehension raises on the first failing bar). -/
def seqOption : List (Option α) → Option (List α)
  | [] => some []
  | o :: rest => o.bind fun a => (seqOption rest).map (a :: ·)

/-- `retrieve_historical_bars` (lines 210-303) over an explicit upstream
oracle, returning the result together with the list of upstream requests
issued (the call log; the real call builds a URL from the API key, symbol and
window bounds — only the window bounds vary, so the log records those).
The asset symbol enters only the URL and is omitted. -/
def retrieve_historical_bars (upstream : Int × Int → Payload)
    (start_date end_date : Int) (tframe type_ : String)
    (format_taLib : Bool) : Except String SingleResult × List (Int × Int) :=
  if tframe ∉ timeframes then
    (.error "Invalid timeframe value. Must be one of the supported timeframes", [])
  else if type_ ∉ ["stock", "crypto"] then
    (.error "Invalid type value. Must be stock, or crypto", [])
  else
    let data0 := payloadRows (upstream (start_date, end_date))
    if data0 = [] then (.ok (.rows []), [(start_date, end_date)])
    else
      if format_taLib then
        (.ok (.cols (pivotColumns data0.reverse)), [(start_date, end_date)])
      else
        match seqOption ((trimmedRows data0).map
            (convertBar (timeFormatFor tframe))) with
        | some bars => (.ok (.rows bars), [(start_date, end_date)])
        | none =>
            (.error "ValueError: time data does not match format",
             [(start_date, end_date)])

/-- The merge step of `recurssive_call_retrieve_historical_bars` in bar-list
mode (lines 383-384): concatenate the per-window series (in completion order,
which is arbitrary), `data.sort(key=lambda x: x["datetime"])` — a stable sort
on the datetime string — and keep the last 10000 entries (`data[-10000:]`;
sorting preserves length, so the slice bound is the concatenation's length). -/
def mergeStep (chunks : List (List Bar)) : List Bar :=
  (chunks.flatten.mergeSort fun a b => decide (a.datetime ≤ b.datetime)).drop
    (chunks.flatten.length - 10000)

/-- An element of the `data` list being accumulated at lines 362-378: a bar
dictionary, or — when a window returned the taLib column record —
one of the keys of that record, because `list.extend(dict)` iterates the
keys of the dictionary. -/
inductive MergeItem where
  | bar (b : Bar)
  | key (s : String)
deriving DecidableEq

/-- The keys of the taLib record, in insertion order (lines 267-274). -/
def colKeys : List String :=
  ["open", "high", "low", "close", "volume", "date"]

/-- `data.extend(f.result())` at line 378 for one window result. -/
def extendItems : SingleResult → List MergeItem
  | .rows l => l.map .bar
  | .cols _ => colKeys.map .key

/-- Whether an accumulated element is a bar dictionary; the sort key
`lambda x: x["datetime"]` raises `TypeError` on any element that is not. -/
def isBarItem : MergeItem → Bool
  | .bar _ => true
  | .key _ => false

/-- The bar list of a window result (only used when every accumulated element
is a bar, in which case column results contributed nothing). -/
def rowsOf : SingleResult → List Bar
  | .rows l => l
  | .cols _ => []

/-- `for f in as_completed(results): data.extend(f.result())` (lines 377-378):
the first failed future raises through `f.result()` and aborts collection. -/
def collectResults : List (Except String SingleResult) →
    Except String (List SingleResult)
  | [] => .ok []
  | .error e :: _ => .error e
  | .ok v :: rest => (collectResults rest).map (v :: ·)

/-- `recurssive_call_retrieve_historical_bars` (lines 305-385): validate,
plan windows, fetch each window through `retrieve_historical_bars`, then
merge.  The model fixes submission order as the completion order (the real
`as_completed` order is nondeterministic; the merge theorems quantify over
arbitrary per-window series, covering every order).  The `planWindows = none`
branch is unreachable for catalog timeframes (fuel sufficiency is proved
below).  With `format_taLib` set, any nonempty window result makes
`data.sort` raise `TypeError`, because `data` then holds the column record
keys instead of bar dictionaries. -/
def recurssive_call_retrieve_historical_bars (upstream : Int × Int → Payload)
    (start_date end_date : Int) (tframe type_ : String)
    (format_taLib : Bool) : Except String (List Bar) × List (Int × Int) :=
  match interval_to_max_days tframe with
  | none => (.error "Invalid timeframe value", [])
  | some sp =>
      if type_ ∉ ["stock", "crypto"] then
        (.error "Invalid type value. Must be stock or crypto", [])
      else
        match planWindows sp type_ start_date end_date with
        | none => (.error "planner fuel exhausted", [])
        | some ws =>
            let calls := ws.map fun w =>
              retrieve_historical_bars upstream w.1 w.2 tframe type_ format_taLib
            let log := (calls.map (·.2)).flatten
            match collectResults (calls.map (·.1)) with
            | .error e => (.error e, log)
            | .ok outs =>
                if ((outs.map extendItems).flatten.all isBarItem) then
                  (.ok (mergeStep (outs.map rowsOf)), log)
                else
                  (.error "TypeError: string indices must be integers", log)

set_option maxHeartbeats 1000000 in
/-- Every catalog entry has `max_range_days` at least 3 and both expected
point densities at least 40 (the minimum, reached by `1year`). -/
theorem catalog_spec_bounds (tf : String) (sp : TimeframeSpec)
    (h : interval_to_max_days tf = some sp) :
    3 ≤ sp.max_range_days ∧ 40 ≤ sp.num_points_market_hours_only ∧
      40 ≤ sp.num_points := by
  unfold interval_to_max_days at h
  split_ifs at h <;>
    (injection h with h; subst h; refine ⟨by norm_num, ?_, ?_⟩) <;>
    norm_num [minute_to_count_in_market_day, minute_to_count_in_day]

/-- Every window emitted by the planning loop has the exact shape
`(end - (max_days - 1) days, end)` for its own cursor value `end`. -/
theorem planLoop_mem_shape (startD maxDays : Int) (numPoints : ℚ) :
    ∀ (fuel : Nat) (endD : Int) (total : ℚ) (ws : List (Int × Int)),
      planLoop startD maxDays numPoints fuel endD total = some ws →
      ∀ w ∈ ws, w.1 = w.2 - (maxDays - 1) * oneDay := by
  intro fuel
  induction fuel with
  | zero =>
      intro endD total ws h w hw
      rw [planLoop] at h
      split at h
      · exact absurd h (by simp)
      · cases h; simp at hw
  | succ n ih =>
      intro endD total ws h w hw
      rw [planLoop] at h
      split at h
      · rcases Option.map_eq_some'.mp h with ⟨rest, hrest, hcons⟩
        subst hcons
        rcases List.mem_cons.mp hw with hw | hw
        · subst hw; simp
        · exact ih _ _ rest hrest w hw
      · cases h; simp at hw

/-- One loop iteration when the guard holds. -/
theorem planLoop_step (s D : Int) (np : ℚ) (fuel : Nat) (e : Int) (t : ℚ)
    (h1 : s ≤ e) (h2 : t < 20000) :
    planLoop s D np (fuel + 1) e t =
      (planLoop s D np fuel (e - (D - 1) * oneDay - oneDay) (t + np)).map
        (fun rest => (e - (D - 1) * oneDay, e) :: rest) := by
  rw [planLoop, if_pos ⟨h1, h2⟩]

/-- The loop exits as soon as the guard fails, whatever the fuel. -/
theorem planLoop_stop (s D : Int) (np : ℚ) (fuel : Nat) (e : Int) (t : ℚ)
    (h : ¬(s ≤ e ∧ t < 20000)) :
    planLoop s D np fuel e t = some [] := by
  cases fuel <;> rw [planLoop] <;> exact if_neg h

/-- Every emitted window ends no later than the cursor it was cut from, and
consecutive windows are newest-first: each next window ends strictly before
the current one starts. -/
theorem planLoop_cursor (s D : Int) (np : ℚ) (hD : 1 ≤ D) :
    ∀ (fuel : Nat) (e : Int) (t : ℚ) (ws : List (Int × Int)),
      planLoop s D np fuel e t = some ws →
      (∀ w ∈ ws, w.2 ≤ e) ∧ ws.Chain' (fun a b => b.2 < a.1) := by
  have hday : (0 : Int) < oneDay := by norm_num [oneDay]
  have hD1 : (0 : Int) ≤ (D - 1) * oneDay :=
    mul_nonneg (by linarith) (le_of_lt hday)
  intro fuel
  induction fuel with
  | zero =>
      intro e t ws h
      rw [planLoop] at h
      split at h
      · exact absurd h (by simp)
      · cases h; exact ⟨by simp, by simp⟩
  | succ n ih =>
      intro e t ws h
      rw [planLoop] at h
      split at h
      · rcases Option.map_eq_some'.mp h with ⟨rest, hrest, hcons⟩
        subst hcons
        obtain ⟨hle, hch⟩ := ih _ _ rest hrest
        refine ⟨?_, ?_⟩
        · intro w hw
          rcases List.mem_cons.mp hw with hw | hw
          · subst hw; exact le_refl e
          · have := hle w hw; linarith
        · refine List.chain'_cons'.mpr ⟨?_, hch⟩
          intro b hb
          have hbm : b ∈ rest := List.mem_of_mem_head? hb
          have := hle b hbm
          simpa using by linarith
      · cases h; exact ⟨by simp, by simp⟩

/-- Fuel sufficiency: when every iteration adds at least 40 expected points,
`fuel` iterations suffice once `total + fuel * 40` reaches the 20000 cap. -/
theorem planLoop_isSome_of_points (s D : Int) (np : ℚ) (hnp : 40 ≤ np) :
    ∀ (fuel : Nat) (e : Int) (t : ℚ), 20000 ≤ t + fuel * 40 →
      (planLoop s D np fuel e t).isSome = true := by
  intro fuel
  induction fuel with
  | zero =>
      intro e t h
      rw [planLoop]
      split
      · rename_i hc
        push_cast at h
        exact absurd hc (by push_neg; intro _; linarith)
      · simp
  | succ n ih =>
      intro e t h
      rw [planLoop]
      split
      · have hs := ih (e - (D - 1) * oneDay - oneDay) (t + np)
          (by push_cast at h ⊢; linarith)
        rcases Option.isSome_iff_exists.mp hs with ⟨ws, hws⟩
        rw [hws]; rfl
      · simp

/-- The loop emits at most one window per unit of fuel. -/
theorem planLoop_length (s D : Int) (np : ℚ) :
    ∀ (fuel : Nat) (e : Int) (t : ℚ) (ws : List (Int × Int)),
      planLoop s D np fuel e t = some ws → ws.length ≤ fuel := by
  intro fuel
  induction fuel with
  | zero =>
      intro e t ws h
      rw [planLoop] at h
      split at h
      · exact absurd h (by simp)
      · cases h; simp
  | succ n ih =>
      intro e t ws h
      rw [planLoop] at h
      split at h
      · rcases Option.map_eq_some'.mp h with ⟨rest, hrest, hcons⟩
        subst hcons
        simpa using ih _ _ rest hrest
      · cases h; simp

/-- For the `1min` timeframe and `stock` data, `plan` is the loop with
`max_days = 3` and 1170 expected market-hour points per window. -/
theorem plan_1min_stock (sD eD : Int) :
    plan "1min" "stock" sD eD = planLoop sD 3 1170 500 eD 0 := by
  simp [plan, interval_to_max_days, planWindows, planFuel,
    minute_to_count_in_market_day]

/-- Concrete run: a 7-day request (day 0 to day 6) at `1min` yields three
3-day windows, the last reaching 2 days before the requested start. -/
theorem plan_1min_7days :
    plan "1min" "stock" 0 8640 = some [(5760, 8640), (1440, 4320), (-2880, 0)] := by
  rw [plan_1min_stock]
  have s1 : planLoop 0 3 1170 500 8640 0 =
      (planLoop 0 3 1170 499 4320 1170).map (fun rest => (5760, 8640) :: rest) := by
    have h := planLoop_step 0 3 1170 499 8640 0 (by norm_num) (by norm_num)
    rw [show (499 : Nat) + 1 = 500 from rfl] at h
    rw [h]; norm_num [oneDay]
  have s2 : planLoop 0 3 1170 499 4320 1170 =
      (planLoop 0 3 1170 498 0 2340).map (fun rest => (1440, 4320) :: rest) := by
    have h := planLoop_step 0 3 1170 498 4320 1170 (by norm_num) (by norm_num)
    rw [show (498 : Nat) + 1 = 499 from rfl] at h
    rw [h]; norm_num [oneDay]
  have s3 : planLoop 0 3 1170 498 0 2340 =
      (planLoop 0 3 1170 497 (-4320) 3510).map (fun rest => (-2880, 0) :: rest) := by
    have h := planLoop_step 0 3 1170 497 0 2340 (by norm_num) (by norm_num)
    rw [show (497 : Nat) + 1 = 498 from rfl] at h
    rw [h]; norm_num [oneDay]
  have s4 : planLoop 0 3 1170 497 (-4320) 3510 = some [] :=
    planLoop_stop 0 3 1170 497 (-4320) 3510 (by norm_num)
  rw [s1, s2, s3, s4]; rfl

/-- Concrete run: a one-day request (day 0 to day 0) at `1min` yields the
single window `[-2 days, day 0]`. -/
theorem plan_1min_1day :
    plan "1min" "stock" 0 0 = some [(-2880, 0)] := by
  rw [plan_1min_stock]
  have s1 : planLoop 0 3 1170 500 0 0 =
      (planLoop 0 3 1170 499 (-4320) 1170).map (fun rest => (-2880, 0) :: rest) := by
    have h := planLoop_step 0 3 1170 499 0 0 (by norm_num) (by norm_num)
    rw [show (499 : Nat) + 1 = 500 from rfl] at h
    rw [h]; norm_num [oneDay]
  have s2 : planLoop 0 3 1170 499 (-4320) 1170 = some [] :=
    planLoop_stop 0 3 1170 499 (-4320) 1170 (by norm_num)
  rw [s1, s2]; rfl

/-- C2: for every supported timeframe and every request with `end >= start`,
every window `(s, e)` emitted by the chunked planner loop satisfies `s <= e`,
and the window's span (days from `s` to `e` inclusive, i.e. `e - s + oneDay`
minutes) is at most `max_range_days` days. -/
theorem C2_window_bounds (tf type_ : String) (sp : TimeframeSpec)
    (startD endD : Int) (ws : List (Int × Int))
    (hsp : interval_to_max_days tf = some sp)
    (hty : type_ = "stock" ∨ type_ = "crypto")
    (hse : startD ≤ endD)
    (hws : plan tf type_ startD endD = some ws) :
    ∀ w ∈ ws, w.1 ≤ w.2 ∧ w.2 - w.1 + oneDay ≤ sp.max_range_days * oneDay := by
  intro w hw
  have hD : 3 ≤ sp.max_range_days := (catalog_spec_bounds tf sp hsp).1
  have hday : (0 : Int) < oneDay := by norm_num [oneDay]
  rw [plan, hsp] at hws
  simp only [Option.some_bind, planWindows, planFuel] at hws
  have hshape := planLoop_mem_shape startD sp.max_range_days _ 500 endD 0 ws hws w hw
  constructor
  · rw [hshape]
    nlinarith [mul_nonneg (by linarith : (0 : Int) ≤ sp.max_range_days - 1)
      (le_of_lt hday)]
  · rw [hshape]; nlinarith

/-- Witness for C2 at `1min`, `stock`, request `[0, 0]` and its single
emitted window `(-2880, 0)`. -/
theorem C2_window_bounds_witness :
    ((-2880 : Int), (0 : Int)).1 ≤ ((-2880 : Int), (0 : Int)).2 ∧
      ((-2880 : Int), (0 : Int)).2 - ((-2880 : Int), (0 : Int)).1 + oneDay ≤
        (3 : Int) * oneDay :=
  C2_window_bounds "1min" "stock" ⟨3, 1170, 4320⟩ 0 0 [(-2880, 0)]
    (by norm_num [interval_to_max_days, minute_to_count_in_market_day,
      minute_to_count_in_day])
    (Or.inl rfl) (le_refl 0) plan_1min_1day ((-2880, 0)) (by simp)

/-- C9: for every supported timeframe and asset type, the planner's
window-emission loop terminates: each iteration adds a fixed positive
expected point count, the whole run needs at most 500 iterations (the
20000-point cap divided by the smallest density), and successive windows
move the cursor strictly earlier. -/
theorem C9_planner_terminates (tf type_ : String) (sp : TimeframeSpec)
    (startD endD : Int)
    (hsp : interval_to_max_days tf = some sp)
    (hty : type_ = "stock" ∨ type_ = "crypto") :
    (0 : ℚ) < (if type_ = "stock" then sp.num_points_market_hours_only
        else sp.num_points) ∧
    ∃ ws, plan tf type_ startD endD = some ws ∧ ws.length ≤ 500 ∧
      List.Chain' (fun a b : Int × Int => b.2 < a.1) ws := by
  obtain ⟨hD, hm, hc⟩ := catalog_spec_bounds tf sp hsp
  have hnp : (40 : ℚ) ≤ (if type_ = "stock" then sp.num_points_market_hours_only
      else sp.num_points) := by
    rcases hty with h | h <;> rw [h] <;> simp [hm, hc]
  refine ⟨by linarith, ?_⟩
  have hsome := planLoop_isSome_of_points startD sp.max_range_days _ hnp 500
    endD 0 (by norm_num)
  rcases Option.isSome_iff_exists.mp hsome with ⟨ws, hws⟩
  refine ⟨ws, ?_, ?_, ?_⟩
  · rw [plan, hsp]
    simp only [Option.some_bind, planWindows, planFuel]
    exact hws
  · exact planLoop_length startD sp.max_range_days _ 500 endD 0 ws hws
  · exact (planLoop_cursor startD sp.max_range_days _ (by linarith) 500
      endD 0 ws hws).2

/-- Witness for C9 at `1min`, `stock`, request `[0, 0]`. -/
theorem C9_planner_terminates_witness :
    ((0 : ℚ) < if "stock" = "stock" then (1170 : ℚ) else 4320) ∧
    ∃ ws, plan "1min" "stock" 0 0 = some ws ∧ ws.length ≤ 500 ∧
      List.Chain' (fun a b : Int × Int => b.2 < a.1) ws :=
  C9_planner_terminates "1min" "stock" ⟨3, 1170, 4320⟩ 0 0
    (by norm_num [interval_to_max_days, minute_to_count_in_market_day,
      minute_to_count_in_day])
    (Or.inl rfl)

/-- C3 as stated is false: with `1min` (whose `max_range_days` is 3, which
exceeds the one-day requested span `[0, 0]`), the single emitted window is
`[-2 days, day 0]`, which is not equal to `[start, end] = [0, 0]` — the
planner never clamps its window to the requested start. -/
theorem C3_counterexample :
    (interval_to_max_days "1min").map (fun sp => sp.max_range_days) = some 3 ∧
    (1 : Int) < 3 ∧
    plan "1min" "stock" 0 0 = some [(-2880, 0)] ∧
    ((-2880 : Int), (0 : Int)) ≠ ((0 : Int), (0 : Int)) := by
  refine ⟨?_, by norm_num, plan_1min_1day, by decide⟩
  norm_num [interval_to_max_days]

/-- C3 (amended): when the timeframe's `max_range_days` exceeds the requested
span, the planner produces exactly one window,
`[end - (max_range_days - 1) days, end]`: it covers `[start, end]` but begins
strictly before `start` rather than coinciding with it. -/
theorem C3_single_window (tf type_ : String) (sp : TimeframeSpec)
    (startD endD spanDays : Int)
    (hsp : interval_to_max_days tf = some sp)
    (hspan : endD - startD = (spanDays - 1) * oneDay)
    (h1 : 1 ≤ spanDays)
    (hlt : spanDays < sp.max_range_days) :
    plan tf type_ startD endD =
      some [(endD - (sp.max_range_days - 1) * oneDay, endD)] ∧
    endD - (sp.max_range_days - 1) * oneDay < startD := by
  have hday : (0 : Int) < oneDay := by norm_num [oneDay]
  have hse : startD ≤ endD := by
    nlinarith [mul_nonneg (by linarith : (0 : Int) ≤ spanDays - 1)
      (le_of_lt hday)]
  constructor
  · rw [plan, hsp]
    simp only [Option.some_bind, planWindows, planFuel]
    have hstep := planLoop_step startD sp.max_range_days
      (if type_ = "stock" then sp.num_points_market_hours_only
        else sp.num_points) 499 endD 0 hse (by norm_num)
    rw [show (499 : Nat) + 1 = 500 from rfl] at hstep
    have hstop : planLoop startD sp.max_range_days
        (if type_ = "stock" then sp.num_points_market_hours_only
          else sp.num_points) 499
        (endD - (sp.max_range_days - 1) * oneDay - oneDay)
        (0 + (if type_ = "stock" then sp.num_points_market_hours_only
          else sp.num_points)) = some [] := by
      apply planLoop_stop
      push_neg
      intro hc
      exfalso
      nlinarith
    rw [hstep, hstop]
    rfl
  · nlinarith

/-- Witness for the amended C3 at `1min`, `stock`, request `[0, 0]`
(span one day, `max_range_days = 3`). -/
theorem C3_single_window_witness :
    plan "1min" "stock" 0 0 = some [(0 - ((3 : Int) - 1) * oneDay, 0)] ∧
      (0 : Int) - ((3 : Int) - 1) * oneDay < 0 :=
  C3_single_window "1min" "stock" ⟨3, 1170, 4320⟩ 0 0 1
    (by norm_num [interval_to_max_days, minute_to_count_in_market_day,
      minute_to_count_in_day])
    (by norm_num) (le_refl 1) (by norm_num)

/-- C4 as stated is false: for `1min` over the 7-day request from day 0 to
day 6 the planner emits three windows, but the third one spans 3 days
(days -2..0), not 1 day — it overshoots the requested start by 2 days. -/
theorem C4_counterexample :
    plan "1min" "stock" 0 8640 =
      some [(5760, 8640), (1440, 4320), (-2880, 0)] ∧
    (0 : Int) - (-2880) + oneDay = 3 * oneDay ∧
    (0 : Int) - (-2880) + oneDay ≠ 1 * oneDay :=
  ⟨plan_1min_7days, by norm_num [oneDay], by norm_num [oneDay]⟩

/-- C4 (amended): `1min` over the 7-day request from day 0 to day 6 yields
exactly three windows, newest first, each spanning exactly 3 days; the first
two lie inside the requested range and the third starts 2 days before the
requested start, overlapping the request only in its final day. -/
theorem C4_seven_day_windows :
    plan "1min" "stock" 0 8640 =
      some [(5760, 8640), (1440, 4320), (-2880, 0)] ∧
    (8640 : Int) - 5760 + oneDay = 3 * oneDay ∧
    (4320 : Int) - 1440 + oneDay = 3 * oneDay ∧
    (0 : Int) - (-2880) + oneDay = 3 * oneDay ∧
    (4320 : Int) < 5760 ∧ (0 : Int) < 1440 ∧
    (-2880 : Int) = 0 - 2 * oneDay ∧ (-2880 : Int) < 0 :=
  ⟨plan_1min_7days, by norm_num [oneDay], by norm_num [oneDay],
    by norm_num [oneDay], by norm_num, by norm_num, by norm_num [oneDay],
    by norm_num⟩


/-- A sample converted bar used for duplicate-timestamp inputs. -/
def dupBar : Bar := ⟨"2023-01-01 00:00:00+0000", 1, 2, 3, 4, 5⟩

/-- The merge key comparison is transitive. -/
theorem mergeLe_trans (a b c : Bar) :
    decide (a.datetime ≤ b.datetime) = true →
    decide (b.datetime ≤ c.datetime) = true →
    decide (a.datetime ≤ c.datetime) = true := by
  simp only [decide_eq_true_eq]
  exact le_trans

/-- The merge key comparison is total. -/
theorem mergeLe_total (a b : Bar) :
    (decide (a.datetime ≤ b.datetime) || decide (b.datetime ≤ a.datetime)) = true := by
  simp only [Bool.or_eq_true, decide_eq_true_eq]
  exact le_total a.datetime b.datetime

/-- C1 as stated is false: two overlapping windows both holding the same
timestamp repeatedly (6000 + 5000 copies, combined length 11000 > 10000)
merge into 10000 retained duplicates, so the result is *not* strictly
ascending by timestamp — duplicate retention and strict ascent are
incompatible. -/
theorem C1_counterexample :
    10000 <
      ([List.replicate 6000 dupBar, List.replicate 5000 dupBar] :
        List (List Bar)).flatten.length ∧
    ¬ List.Pairwise (fun a b : Bar => a.datetime < b.datetime)
      (mergeStep [List.replicate 6000 dupBar, List.replicate 5000 dupBar]) := by
  have hflat : ([List.replicate 6000 dupBar, List.replicate 5000 dupBar] :
      List (List Bar)).flatten = List.replicate 11000 dupBar := by
    rw [show (11000 : Nat) = 6000 + 5000 from rfl, List.replicate_add]
    rw [List.flatten_cons, List.flatten_cons, List.flatten_nil, List.append_nil]
  constructor
  · rw [hflat, List.length_replicate]; norm_num
  · intro hpw
    have hsortEq : (List.replicate 11000 dupBar).mergeSort
        (fun a b : Bar => decide (a.datetime ≤ b.datetime)) =
        List.replicate 11000 dupBar :=
      List.perm_replicate.mp (List.mergeSort_perm _ _)
    rw [mergeStep, hflat, hsortEq, List.length_replicate,
      List.drop_replicate] at hpw
    rcases List.pairwise_replicate.mp hpw with h | h
    · norm_num at h
    · exact lt_irrefl _ h

/-- C1 (amended): when the combined per-window bar lists exceed 10000 bars,
the non-column merge step returns exactly 10000 bars, sorted in
non-decreasing (rather than strictly ascending) datetime order; together with
the dropped bars it is a permutation of the concatenated union — duplicates
from overlapping windows are retained, nothing is deduplicated — and every
dropped bar's datetime is at most every kept bar's datetime, i.e. the kept
bars are the chronologically last 10000. -/
theorem C1_merge_last_10000 (chunks : List (List Bar))
    (h : 10000 < chunks.flatten.length) :
    (mergeStep chunks).length = 10000 ∧
    List.Pairwise (fun a b : Bar => a.datetime ≤ b.datetime) (mergeStep chunks) ∧
    ∃ dropped : List Bar,
      dropped.length = chunks.flatten.length - 10000 ∧
      (dropped ++ mergeStep chunks).Perm chunks.flatten ∧
      ∀ x ∈ dropped, ∀ y ∈ mergeStep chunks, x.datetime ≤ y.datetime := by
  have hsorted := @List.sorted_mergeSort Bar
    (fun a b : Bar => decide (a.datetime ≤ b.datetime))
    (fun a b c => mergeLe_trans a b c) (fun a b => mergeLe_total a b)
    chunks.flatten
  have hlen : (chunks.flatten.mergeSort (fun a b : Bar =>
      decide (a.datetime ≤ b.datetime))).length = chunks.flatten.length :=
    List.length_mergeSort _
  have hsplit := List.take_append_drop (chunks.flatten.length - 10000)
    (chunks.flatten.mergeSort (fun a b : Bar => decide (a.datetime ≤ b.datetime)))
  refine ⟨?_, ?_, ?_⟩
  · rw [mergeStep, List.length_drop, hlen]
    omega
  · have hpw : List.Pairwise (fun a b : Bar =>
        decide (a.datetime ≤ b.datetime) = true) (mergeStep chunks) := by
      rw [mergeStep]
      exact hsorted.sublist (List.drop_sublist _ _)
    exact hpw.imp (fun hab => decide_eq_true_eq.mp hab)
  · refine ⟨(chunks.flatten.mergeSort (fun a b : Bar =>
      decide (a.datetime ≤ b.datetime))).take (chunks.flatten.length - 10000),
      ?_, ?_, ?_⟩
    · rw [List.length_take, hlen]
      omega
    · rw [mergeStep, hsplit]
      exact List.mergeSort_perm _ _
    · have hpw := hsorted
      rw [← hsplit] at hpw
      have h3 := (List.pairwise_append.mp hpw).2.2
      intro x hx y hy
      rw [mergeStep] at hy
      exact decide_eq_true_eq.mp (h3 x hx y hy)

/-- Witness for the amended C1: a single window of 10001 identical-timestamp
bars. -/
theorem C1_merge_last_10000_witness :
    10000 < ([List.replicate 10001 dupBar] : List (List Bar)).flatten.length ∧
    ((mergeStep [List.replicate 10001 dupBar]).length = 10000 ∧
    List.Pairwise (fun a b : Bar => a.datetime ≤ b.datetime)
      (mergeStep [List.replicate 10001 dupBar]) ∧
    ∃ dropped : List Bar,
      dropped.length =
        ([List.replicate 10001 dupBar] : List (List Bar)).flatten.length - 10000 ∧
      (dropped ++ mergeStep [List.replicate 10001 dupBar]).Perm
        ([List.replicate 10001 dupBar] : List (List Bar)).flatten ∧
      ∀ x ∈ dropped, ∀ y ∈ mergeStep [List.replicate 10001 dupBar],
        x.datetime ≤ y.datetime) :=
  have hl : ([List.replicate 10001 dupBar] : List (List Bar)).flatten.length
      = 10001 := by
    rw [List.flatten_cons, List.flatten_nil, List.append_nil,
      List.length_replicate]
  ⟨by rw [hl]; norm_num, C1_merge_last_10000 [List.replicate 10001 dupBar]
    (by rw [hl]; norm_num)⟩

/-- C6: a timeframe outside the respective supported set or an asset type
outside `{stock, crypto}` makes each retrieval entry point return a
validation error with an empty upstream call log — the error is raised
before any network request, and no windows are fetched. -/
theorem C6_validation_before_network :
    (∀ (upstream : Int × Int → Payload) (s e : Int) (tf ty : String) (fm : Bool),
      tf ∉ timeframes →
      ∃ m, retrieve_historical_bars upstream s e tf ty fm = (.error m, [])) ∧
    (∀ (upstream : Int × Int → Payload) (s e : Int) (tf ty : String) (fm : Bool),
      ty ∉ (["stock", "crypto"] : List String) →
      ∃ m, retrieve_historical_bars upstream s e tf ty fm = (.error m, [])) ∧
    (∀ (upstream : Int × Int → Payload) (s e : Int) (tf ty : String) (fm : Bool),
      interval_to_max_days tf = none →
      ∃ m, recurssive_call_retrieve_historical_bars upstream s e tf ty fm =
        (.error m, [])) ∧
    (∀ (upstream : Int × Int → Payload) (s e : Int) (tf ty : String) (fm : Bool),
      ty ∉ (["stock", "crypto"] : List String) →
      ∃ m, recurssive_call_retrieve_historical_bars upstream s e tf ty fm =
        (.error m, [])) := by
  refine ⟨?_, ?_, ?_, ?_⟩
  · intro up s e tf ty fm htf
    exact ⟨"Invalid timeframe value. Must be one of the supported timeframes",
      by simp [retrieve_historical_bars, htf]⟩
  · intro up s e tf ty fm hty
    by_cases htf : tf ∉ timeframes
    · exact ⟨"Invalid timeframe value. Must be one of the supported timeframes",
        by simp [retrieve_historical_bars, htf]⟩
    · exact ⟨"Invalid type value. Must be stock, or crypto",
        by simp [retrieve_historical_bars, htf, hty]⟩
  · intro up s e tf ty fm htf
    exact ⟨"Invalid timeframe value",
      by simp [recurssive_call_retrieve_historical_bars, htf]⟩
  · intro up s e tf ty fm hty
    rcases hsp : interval_to_max_days tf with _ | sp
    · exact ⟨"Invalid timeframe value",
        by simp [recurssive_call_retrieve_historical_bars, hsp]⟩
    · exact ⟨"Invalid type value. Must be stock or crypto",
        by simp [recurssive_call_retrieve_historical_bars, hsp, hty]⟩

/-- Witness for C6: timeframe `2min` and asset type `forex` are rejected by
both entry points with no upstream calls. -/
theorem C6_validation_before_network_witness :
    (∃ m, retrieve_historical_bars (fun _ => .arr []) 0 0 "2min" "stock" false =
      (.error m, [])) ∧
    (∃ m, retrieve_historical_bars (fun _ => .arr []) 0 0 "1min" "forex" false =
      (.error m, [])) ∧
    (∃ m, recurssive_call_retrieve_historical_bars (fun _ => .arr []) 0 0
      "2min" "stock" false = (.error m, [])) ∧
    (∃ m, recurssive_call_retrieve_historical_bars (fun _ => .arr []) 0 0
      "1min" "forex" false = (.error m, [])) :=
  ⟨C6_validation_before_network.1 _ 0 0 "2min" "stock" false (by decide),
   C6_validation_before_network.2.1 _ 0 0 "1min" "forex" false (by decide),
   C6_validation_before_network.2.2.1 _ 0 0 "2min" "stock" false (by rfl),
   C6_validation_before_network.2.2.2 _ 0 0 "1min" "forex" false (by decide)⟩

/-- C8: an empty upstream payload — an empty JSON array, an object without
the `historical` key, or an object with an empty `historical` array — makes
the single-window fetch return the empty series `ok []` (after one upstream
call), never an error. -/
theorem C8_empty_payload (s e : Int) (tf ty : String) (fm : Bool) (p : Payload)
    (htf : tf ∈ timeframes) (hty : ty ∈ (["stock", "crypto"] : List String))
    (hp : p = .arr [] ∨ p = .obj none ∨ p = .obj (some [])) :
    retrieve_historical_bars (fun _ => p) s e tf ty fm =
      (.ok (.rows []), [(s, e)]) := by
  rcases hp with hp | hp | hp <;> subst hp <;>
    simp [retrieve_historical_bars, htf, hty, payloadRows]

/-- Witness for C8: a daily fetch whose upstream object lacks `historical`. -/
theorem C8_empty_payload_witness :
    retrieve_historical_bars (fun _ => Payload.obj none) 0 0 "1day" "stock"
      false = (.ok (.rows []), [(0, 0)]) :=
  C8_empty_payload 0 0 "1day" "stock" false (Payload.obj none) (by decide)
    (by decide) (Or.inr (Or.inl rfl))

/-- C7: `parse_date_string` succeeds exactly on strings matching one of the
three formats `%Y-%m-%d %H:%M:%S%z`, `%Y-%m-%d %H:%M:%S`, `%Y-%m-%d`; in
particular the three sample strings succeed and `01/01/2023` raises the
date-parse error. -/
theorem C7_parse_date_string_formats :
    (parse_date_string "2023-01-01").isOk = true ∧
    (parse_date_string "2023-01-01 10:00:00").isOk = true ∧
    (parse_date_string "2023-01-01 10:00:00+0000").isOk = true ∧
    (parse_date_string "01/01/2023").isOk = false ∧
    ∀ s : String, (parse_date_string s).isOk = true ↔
      ((strptimeYmdHmsZ s).isSome = true ∨ (strptimeYmdHms s).isSome = true ∨
        (strptimeYmd s).isSome = true) := by
  refine ⟨by decide, by decide, by decide, by decide, ?_⟩
  intro s
  rcases h1 : strptimeYmdHmsZ s with _ | a
  · rcases h2 : strptimeYmdHms s with _ | p
    · rcases h3 : strptimeYmd s with _ | p
      · simp [parse_date_string, h1, h2, h3, Except.isOk, Except.toBool]
      · simp [parse_date_string, h1, h2, h3, Except.isOk, Except.toBool]
    · simp [parse_date_string, h1, h2, Except.isOk, Except.toBool]
  · simp [parse_date_string, h1, Except.isOk, Except.toBool]

/-- Default bars for positional (`getD`) indexing in statements. -/
def defaultRawBar : RawBar := ⟨"", 0, 0, 0, 0, 0⟩

/-- Default converted bar for positional (`getD`) indexing in statements. -/
def defaultOutBar : Bar := ⟨"", 0, 0, 0, 0, 0⟩

/-- A successful `seqOption` over a mapped list determines every output
element positionally from the corresponding input element. -/
theorem seqOption_map_getD (f : RawBar → Option Bar) :
    ∀ (l : List RawBar) (out : List Bar),
      seqOption (l.map f) = some out →
      out.length = l.length ∧
      ∀ i, i < l.length →
        f (l.getD i defaultRawBar) = some (out.getD i defaultOutBar) := by
  intro l
  induction l with
  | nil =>
      intro out h
      simp only [List.map_nil, seqOption] at h
      cases h
      exact ⟨rfl, by intro i hi; cases hi⟩
  | cons a as ih =>
      intro out h
      simp only [List.map_cons, seqOption] at h
      rcases hf : f a with _ | b
      · rw [hf] at h; cases h
      · rw [hf] at h
        simp only [Option.some_bind] at h
        rcases hrest : seqOption (as.map f) with _ | bs
        · rw [hrest] at h; cases h
        · rw [hrest] at h
          simp only [Option.map_some'] at h
          cases h
          obtain ⟨hl, hi⟩ := ih bs hrest
          refine ⟨by simp [hl], ?_⟩
          intro i hilt
          cases i with
          | zero => simpa using hf
          | succ n =>
              simp only [List.getD_cons_succ]
              exact hi n (by simpa using hilt)

/-- A successful bar conversion copies the five OHLCV fields and transforms
only the date. -/
theorem convertBar_fields (fmt : String) (r : RawBar) (b : Bar)
    (h : convertBar fmt r = some b) :
    b.open_ = r.open_ ∧ b.high = r.high ∧ b.low = r.low ∧ b.close = r.close ∧
    b.volume = r.volume ∧
    ∃ p, strptimeFor fmt r.date = some p ∧ b.datetime = estToUtcString p := by
  rw [convertBar] at h
  rcases hp : strptimeFor fmt r.date with _ | p
  · rw [hp] at h; cases h
  · rw [hp] at h
    simp only [Option.map_some'] at h
    cases h
    exact ⟨rfl, rfl, rfl, rfl, rfl, p, rfl, rfl⟩

/-- C10: whenever the single-window fetch succeeds in non-column mode, the
returned series corresponds positionally to the reversed-and-trimmed upstream
payload: every bar's open, high, low, close and volume equal the upstream
bar's values unchanged, and only the date is transformed — parsed with the
endpoint's format and converted from US/Eastern to UTC into the `datetime`
field. -/
theorem C10_ohlcv_frame (upstream : Int × Int → Payload) (s e : Int)
    (tf ty : String) (out : List Bar) (log : List (Int × Int))
    (hres : retrieve_historical_bars upstream s e tf ty false =
      (.ok (.rows out), log)) :
    out.length = (trimmedRows (payloadRows (upstream (s, e)))).length ∧
    ∀ i, i < out.length →
      (out.getD i defaultOutBar).open_ =
        ((trimmedRows (payloadRows (upstream (s, e)))).getD i defaultRawBar).open_ ∧
      (out.getD i defaultOutBar).high =
        ((trimmedRows (payloadRows (upstream (s, e)))).getD i defaultRawBar).high ∧
      (out.getD i defaultOutBar).low =
        ((trimmedRows (payloadRows (upstream (s, e)))).getD i defaultRawBar).low ∧
      (out.getD i defaultOutBar).close =
        ((trimmedRows (payloadRows (upstream (s, e)))).getD i defaultRawBar).close ∧
      (out.getD i defaultOutBar).volume =
        ((trimmedRows (payloadRows (upstream (s, e)))).getD i defaultRawBar).volume ∧
      ∃ p, strptimeFor (timeFormatFor tf)
          (((trimmedRows (payloadRows (upstream (s, e)))).getD i
            defaultRawBar).date) = some p ∧
        (out.getD i defaultOutBar).datetime = estToUtcString p := by
  simp only [retrieve_historical_bars] at hres
  split at hres
  · simp at hres
  · split at hres
    · simp at hres
    · split at hres
      · rename_i hempty
        simp only [Prod.mk.injEq] at hres
        obtain ⟨hout, -⟩ := hres
        injection hout with hout
        injection hout with hout
        subst hout
        rw [hempty]
        refine ⟨by simp [trimmedRows], ?_⟩
        intro i hi
        simp at hi
      · split at hres
        · simp at hres
        · split at hres
          · rename_i bars hseq
            simp only [Prod.mk.injEq] at hres
            obtain ⟨hout, -⟩ := hres
            injection hout with hout
            injection hout with hout
            subst hout
            obtain ⟨hl, hi⟩ := seqOption_map_getD
              (convertBar (timeFormatFor tf)) _ _ hseq
            refine ⟨hl, ?_⟩
            intro i hilt
            have hconv := hi i (by omega)
            obtain ⟨h1, h2, h3, h4, h5, p, hp, hd⟩ :=
              convertBar_fields (timeFormatFor tf) _ _ hconv
            exact ⟨h1, h2, h3, h4, h5, p, hp, hd⟩
          · simp at hres

/-- A sample upstream with one intraday bar at 09:30 US/Eastern winter time. -/
def sampleUpstream : Int × Int → Payload :=
  fun _ => .arr [⟨"2023-01-15 09:30:00", 1, 2, 3, 4, 5⟩]

/-- The bar `sampleUpstream` converts to: 14:30 UTC (UTC−5 in January). -/
def sampleOutBar : Bar := ⟨"2023-01-15 14:30:00+0000", 1, 2, 3, 4, 5⟩

/-- Witness for C10: one 09:30-US/Eastern bar converts to 14:30 UTC with all
five numeric fields untouched. -/
theorem C10_ohlcv_frame_witness :
    ([sampleOutBar] : List Bar).length =
      (trimmedRows (payloadRows (sampleUpstream (0, 0)))).length ∧
    (([sampleOutBar] : List Bar).getD 0 defaultOutBar).open_ =
      ((trimmedRows (payloadRows (sampleUpstream (0, 0)))).getD 0
        defaultRawBar).open_ ∧
    (([sampleOutBar] : List Bar).getD 0 defaultOutBar).high =
      ((trimmedRows (payloadRows (sampleUpstream (0, 0)))).getD 0
        defaultRawBar).high ∧
    (([sampleOutBar] : List Bar).getD 0 defaultOutBar).low =
      ((trimmedRows (payloadRows (sampleUpstream (0, 0)))).getD 0
        defaultRawBar).low ∧
    (([sampleOutBar] : List Bar).getD 0 defaultOutBar).close =
      ((trimmedRows (payloadRows (sampleUpstream (0, 0)))).getD 0
        defaultRawBar).close ∧
    (([sampleOutBar] : List Bar).getD 0 defaultOutBar).volume =
      ((trimmedRows (payloadRows (sampleUpstream (0, 0)))).getD 0
        defaultRawBar).volume ∧
    ∃ p, strptimeFor (timeFormatFor "1min")
        (((trimmedRows (payloadRows (sampleUpstream (0, 0)))).getD 0
          defaultRawBar).date) = some p ∧
      (([sampleOutBar] : List Bar).getD 0 defaultOutBar).datetime =
        estToUtcString p :=
  have h := C10_ohlcv_frame sampleUpstream 0 0 "1min" "stock" [sampleOutBar]
    [(0, 0)] (by rfl)
  have h0 := h.2 0 (by norm_num)
  ⟨h.1, h0.1, h0.2.1, h0.2.2.1, h0.2.2.2.1, h0.2.2.2.2.1, h0.2.2.2.2.2⟩

/-- A sample raw bar for the column-format evaluations. -/
def rawSample : RawBar := ⟨"2023-01-02 10:00:00", 1, 2, 3, 4, 5⟩

/-- C5: the single-window fetch in column mode returns the six parallel
arrays, all of the payload's length (no 10000-entry cap at this layer, the
lengths are equal for arbitrary payload sizes) with dates passed through as
provider-native strings; but the chunked retrieval in column mode cannot
return a column record: any window with a nonempty payload makes the merge
raise `TypeError`, because `data.extend(f.result())` extends the accumulated
list with the column record's *keys* and the sort key lookup then fails on a
string — contradicting both the claim and the function's own docstring. -/
theorem C5_column_format :
    (∀ (rows : List RawBar) (upstream : Int × Int → Payload) (s e : Int)
        (tf ty : String),
      tf ∈ timeframes → ty ∈ (["stock", "crypto"] : List String) →
      upstream (s, e) = .arr rows → rows ≠ [] →
      retrieve_historical_bars upstream s e tf ty true =
        (.ok (.cols (pivotColumns rows.reverse)), [(s, e)]) ∧
      (pivotColumns rows.reverse).open_.length = rows.length ∧
      (pivotColumns rows.reverse).high.length = rows.length ∧
      (pivotColumns rows.reverse).low.length = rows.length ∧
      (pivotColumns rows.reverse).close.length = rows.length ∧
      (pivotColumns rows.reverse).volume.length = rows.length ∧
      (pivotColumns rows.reverse).date.length = rows.length ∧
      (pivotColumns rows.reverse).date = rows.reverse.map RawBar.date) ∧
    (recurssive_call_retrieve_historical_bars (fun _ => .arr [rawSample]) 0 0
        "1min" "stock" true).1 =
      .error "TypeError: string indices must be integers" := by
  constructor
  · intro rows up s e tf ty htf hty hup hne
    refine ⟨?_, by simp [pivotColumns], by simp [pivotColumns],
      by simp [pivotColumns], by simp [pivotColumns], by simp [pivotColumns],
      by simp [pivotColumns], rfl⟩
    simp [retrieve_historical_bars, htf, hty, hup, payloadRows, hne]
  · rfl

/-- Witness for C5: a single one-bar window in column mode. -/
theorem C5_column_format_witness :
    retrieve_historical_bars (fun _ => .arr [rawSample]) 0 0 "1min" "stock"
      true = (.ok (.cols (pivotColumns ([rawSample] : List RawBar).reverse)),
        [(0, 0)]) ∧
    (pivotColumns ([rawSample] : List RawBar).reverse).open_.length = 1 ∧
    (pivotColumns ([rawSample] : List RawBar).reverse).high.length = 1 ∧
    (pivotColumns ([rawSample] : List RawBar).reverse).low.length = 1 ∧
    (pivotColumns ([rawSample] : List RawBar).reverse).close.length = 1 ∧
    (pivotColumns ([rawSample] : List RawBar).reverse).volume.length = 1 ∧
    (pivotColumns ([rawSample] : List RawBar).reverse).date.length = 1 ∧
    (pivotColumns ([rawSample] : List RawBar).reverse).date =
      ([rawSample] : List RawBar).reverse.map RawBar.date :=
  C5_column_format.1 [rawSample] (fun _ => .arr [rawSample]) 0 0 "1min"
    "stock" (by decide) (by decide) rfl (by decide)
